import Mathlib

/-!
Verification of the build-orchestration pipeline of `src/app.py`.

The development is a shallow embedding of the three functions with real
control flow in the source: `compile_with_nuitka` (lines 81-384),
`find_compiled_binary` (lines 450-475) and `run_compiled_binary`
(lines 477-531).

Modelling conventions:
* Filesystem paths are lists of components (`os.path.join` concatenates
  components); the filesystem itself is the list of files that exist.
* The outcomes of external processes (pip, the compiler, the spawned
  artifact) are supplied by an explicit environment record, one field per
  observable effect the source reads.
* Result dictionaries become structures; in addition they carry trace
  fields recording the side effects the source performs on the way
  (directories created, strategies attempted, rename/chmod calls,
  process termination), so that ordering claims can be stated.
* Wall-clock time in the sandbox runner is measured in tenths of a
  second, the poll interval of the source (`time.sleep(0.1)`, line 518).
-/

namespace App

/-- A filesystem path, as its list of components. -/
abbrev Path := List String

/-- Last path component (the file name); empty for the empty path. -/
def lastComponent (p : Path) : String := p.getLast?.getD ""

/-- Python `str.endswith`, decided on the underlying character lists. -/
def strEndsWith (s pat : String) : Bool := decide (pat.data <:+ s.data)

lemma strEndsWith_append (a b : String) : strEndsWith (a ++ b) b = true := by
  simp only [strEndsWith, decide_eq_true_eq, String.data_append]
  exact List.suffix_append a.data b.data

/-- Python glob pattern `dir/**/name` with `recursive=True`: any existing
file strictly below `dir` (`**` may match zero directories) whose base
name is exactly `name`. -/
def matchesRecName (dir : Path) (name : String) (p : Path) : Bool :=
  dir.isPrefixOf p && decide (dir.length < p.length) && (lastComponent p == name)

/-- Python glob pattern `dir/**/*ext`: any existing file strictly below
`dir` whose base name ends with `ext`. (The hiding of dotfiles by glob is
not modelled; no dotfile appears in this development.) -/
def matchesRecExt (dir : Path) (ext : String) (p : Path) : Bool :=
  dir.isPrefixOf p && decide (dir.length < p.length) && strEndsWith (lastComponent p) ext

/-- Lines 450-475 of `src/app.py`, `find_compiled_binary`: resolve the
produced artifact under `outDir`, trying the documented locations in
order over the filesystem `fs`. -/
def find_compiled_binary (fs : List Path) (outDir : Path) (output_filename : String) :
    Option Path :=
  if outDir ++ [output_filename] ∈ fs then some (outDir ++ [output_filename])
  else if outDir ++ ["user_script.dist", output_filename] ∈ fs then
    some (outDir ++ ["user_script.dist", output_filename])
  else
    match fs.find? (matchesRecName outDir output_filename) with
    | some p => some p
    | none =>
      match fs.find? (matchesRecName outDir "user_script") with
      | some p => some p
      | none =>
        match fs.find? (matchesRecExt outDir ".bin") with
        | some p => some p
        | none => fs.find? (matchesRecExt outDir ".exe")

/-- Some pattern of the locator matches `p`. -/
def anyLocatorPattern (outDir : Path) (output_filename : String) (p : Path) : Bool :=
  (p == outDir ++ [output_filename]) ||
  (p == outDir ++ ["user_script.dist", output_filename]) ||
  matchesRecName outDir output_filename p ||
  matchesRecName outDir "user_script" p ||
  matchesRecExt outDir ".bin" p ||
  matchesRecExt outDir ".exe" p

lemma find_eq_direct (fs : List Path) (out : Path) (name : String)
    (h : out ++ [name] ∈ fs) :
    find_compiled_binary fs out name = some (out ++ [name]) := by
  unfold find_compiled_binary
  rw [if_pos h]

lemma find_eq_dist (fs : List Path) (out : Path) (name : String)
    (h1 : out ++ [name] ∉ fs) (h2 : out ++ ["user_script.dist", name] ∈ fs) :
    find_compiled_binary fs out name = some (out ++ ["user_script.dist", name]) := by
  unfold find_compiled_binary
  rw [if_neg h1, if_pos h2]

lemma find_recName (fs : List Path) (out : Path) (name : String)
    (h1 : out ++ [name] ∉ fs) (h2 : out ++ ["user_script.dist", name] ∉ fs)
    (h3 : ∃ q ∈ fs, matchesRecName out name q = true) :
    ∃ p, find_compiled_binary fs out name = some p ∧ matchesRecName out name p = true := by
  unfold find_compiled_binary
  rw [if_neg h1, if_neg h2]
  cases hf : fs.find? (matchesRecName out name) with
  | none =>
    obtain ⟨q, hq, hmq⟩ := h3
    exact absurd hmq (List.find?_eq_none.mp hf q hq)
  | some p =>
    exact ⟨p, rfl, List.find?_some hf⟩

lemma find_sound (fs : List Path) (out : Path) (name : String) :
    ∀ p, find_compiled_binary fs out name = some p →
      p ∈ fs ∧ anyLocatorPattern out name p = true := by
  intro p hp
  unfold find_compiled_binary at hp
  by_cases h1 : out ++ [name] ∈ fs
  · rw [if_pos h1] at hp
    injection hp with hp
    subst hp
    simp [anyLocatorPattern, h1]
  rw [if_neg h1] at hp
  by_cases h2 : out ++ ["user_script.dist", name] ∈ fs
  · rw [if_pos h2] at hp
    injection hp with hp
    subst hp
    simp [anyLocatorPattern, h2]
  rw [if_neg h2] at hp
  cases hf1 : fs.find? (matchesRecName out name) with
  | some q =>
    rw [hf1] at hp
    injection hp with hp
    subst hp
    exact ⟨List.mem_of_find?_eq_some hf1, by simp [anyLocatorPattern, List.find?_some hf1]⟩
  | none =>
  rw [hf1] at hp
  cases hf2 : fs.find? (matchesRecName out "user_script") with
  | some q =>
    rw [hf2] at hp
    injection hp with hp
    subst hp
    exact ⟨List.mem_of_find?_eq_some hf2, by simp [anyLocatorPattern, List.find?_some hf2]⟩
  | none =>
  rw [hf2] at hp
  cases hf3 : fs.find? (matchesRecExt out ".bin") with
  | some q =>
    rw [hf3] at hp
    injection hp with hp
    subst hp
    exact ⟨List.mem_of_find?_eq_some hf3, by simp [anyLocatorPattern, List.find?_some hf3]⟩
  | none =>
  rw [hf3] at hp
  exact ⟨List.mem_of_find?_eq_some hp, by simp [anyLocatorPattern, List.find?_some hp]⟩

lemma find_none_iff (fs : List Path) (out : Path) (name : String) :
    find_compiled_binary fs out name = none ↔
      ∀ p ∈ fs, anyLocatorPattern out name p = false := by
  constructor
  · intro h p hp
    unfold find_compiled_binary at h
    by_cases h1 : out ++ [name] ∈ fs
    · rw [if_pos h1] at h; cases h
    rw [if_neg h1] at h
    by_cases h2 : out ++ ["user_script.dist", name] ∈ fs
    · rw [if_pos h2] at h; cases h
    rw [if_neg h2] at h
    cases hf1 : fs.find? (matchesRecName out name) with
    | some q => rw [hf1] at h; cases h
    | none =>
    rw [hf1] at h
    cases hf2 : fs.find? (matchesRecName out "user_script") with
    | some q => rw [hf2] at h; cases h
    | none =>
    rw [hf2] at h
    cases hf3 : fs.find? (matchesRecExt out ".bin") with
    | some q => rw [hf3] at h; cases h
    | none =>
    rw [hf3] at h
    simp only [anyLocatorPattern, Bool.or_eq_false_iff]
    refine ⟨⟨⟨⟨⟨?_, ?_⟩, ?_⟩, ?_⟩, ?_⟩, ?_⟩
    · exact beq_eq_false_iff_ne.mpr (fun he => h1 (he ▸ hp))
    · exact beq_eq_false_iff_ne.mpr (fun he => h2 (he ▸ hp))
    · exact Bool.eq_false_iff.mpr (List.find?_eq_none.mp hf1 p hp)
    · exact Bool.eq_false_iff.mpr (List.find?_eq_none.mp hf2 p hp)
    · exact Bool.eq_false_iff.mpr (List.find?_eq_none.mp hf3 p hp)
    · exact Bool.eq_false_iff.mpr (List.find?_eq_none.mp h p hp)
  · intro hall
    have h1 : out ++ [name] ∉ fs := by
      intro hm
      have := hall _ hm
      simp [anyLocatorPattern] at this
    have h2 : out ++ ["user_script.dist", name] ∉ fs := by
      intro hm
      have := hall _ hm
      simp [anyLocatorPattern] at this
    have hf : ∀ pred : Path → Bool,
        (∀ q, anyLocatorPattern out name q = false → pred q = false) →
        fs.find? pred = none := by
      intro pred hpred
      refine List.find?_eq_none.mpr (fun q hq => ?_)
      rw [hpred q (hall q hq)]
      exact Bool.false_ne_true
    unfold find_compiled_binary
    rw [if_neg h1, if_neg h2]
    rw [hf (matchesRecName out name) ?m1, hf (matchesRecName out "user_script") ?m2,
      hf (matchesRecExt out ".bin") ?m3, hf (matchesRecExt out ".exe") ?m4]
    case m1 =>
      intro q hq
      simp only [anyLocatorPattern, Bool.or_eq_false_iff] at hq
      exact hq.1.1.1.2
    case m2 =>
      intro q hq
      simp only [anyLocatorPattern, Bool.or_eq_false_iff] at hq
      exact hq.1.1.2
    case m3 =>
      intro q hq
      simp only [anyLocatorPattern, Bool.or_eq_false_iff] at hq
      exact hq.1.2
    case m4 =>
      intro q hq
      simp only [anyLocatorPattern, Bool.or_eq_false_iff] at hq
      exact hq.2

/-- C7: for every output directory and expected file name the artifact
locator searches in the fixed documented order -- exact path in the output
root first, then the expected name under the `user_script.dist`
distribution subdirectory, then a recursive search for the expected name,
then recursive generic executable candidates (bare `user_script`, `*.bin`,
`*.exe`) -- it returns the first path found, every returned path exists and
matches one of the patterns, and it returns the explicit not-found signal
`none` exactly when no pattern matches any existing file. -/
theorem locator_search_order (fs : List Path) (out : Path) (name : String) :
    (out ++ [name] ∈ fs → find_compiled_binary fs out name = some (out ++ [name])) ∧
    (out ++ [name] ∉ fs → out ++ ["user_script.dist", name] ∈ fs →
      find_compiled_binary fs out name = some (out ++ ["user_script.dist", name])) ∧
    (out ++ [name] ∉ fs → out ++ ["user_script.dist", name] ∉ fs →
      (∃ q ∈ fs, matchesRecName out name q = true) →
      ∃ p, find_compiled_binary fs out name = some p ∧ matchesRecName out name p = true) ∧
    (∀ p, find_compiled_binary fs out name = some p →
      p ∈ fs ∧ anyLocatorPattern out name p = true) ∧
    (find_compiled_binary fs out name = none ↔
      ∀ p ∈ fs, anyLocatorPattern out name p = false) :=
  ⟨find_eq_direct fs out name, find_eq_dist fs out name, find_recName fs out name,
    find_sound fs out name, find_none_iff fs out name⟩

/-- Output directory of the demonstration job. -/
def demoOut : Path := ["compiled_output", "job1"]

/-- A filesystem holding one artifact, nested in the .dist subdirectory. -/
def demoFs : List Path := [["compiled_output", "job1", "user_script.dist", "user_script.bin"]]

/-- Witness for C7: on a concrete filesystem whose only artifact lives in
the distribution subdirectory, the locator resolves exactly that path. -/
theorem locator_search_order_witness :
    find_compiled_binary demoFs demoOut "user_script.bin" =
      some (demoOut ++ ["user_script.dist", "user_script.bin"]) :=
  (locator_search_order demoFs demoOut "user_script.bin").2.1 (by decide) (by decide)

/-! ## Process streamer (lines 250-273): live progress and log window -/

/-- State of the live-progress loop: the accumulated log lines
(`compile_output`, split at newlines), the trailing display window of at
most 20 lines, and every value handed to `progress_bar.progress` so far,
in order. -/
structure StreamTrace where
  log : List String
  display : List String
  progressReports : List ℚ
deriving Repr, DecidableEq

/-- Heuristic progress after `n` consumed lines:
`min(line_count / 200, 0.99)` (line 262). -/
def progressFor (n : ℕ) : ℚ := min ((n : ℚ) / 200) (99 / 100)

/-- One iteration of the readline loop (lines 257-270): append the line to
the full log, report the heuristic progress, refresh the 20-line window. -/
def streamStep (s : StreamTrace) (l : String) : StreamTrace :=
  { log := s.log ++ [l]
    display := (s.log ++ [l]).drop ((s.log ++ [l]).length - 20)
    progressReports := s.progressReports ++ [progressFor (s.log ++ [l]).length] }

/-- The whole loop over the lines of the compiler output. -/
def streamLoop (lines : List String) : StreamTrace :=
  lines.foldl streamStep { log := [], display := [], progressReports := [] }

/-- Lines 250-273: the loop, followed by the `progress_bar.progress(1.0)`
issued only once the output stream is exhausted, i.e. the process has
closed its output and completed. -/
def processStream (lines : List String) : StreamTrace :=
  { streamLoop lines with progressReports := (streamLoop lines).progressReports ++ [1] }

lemma streamLoop_eq (lines : List String) :
    streamLoop lines =
      { log := lines
        display := lines.drop (lines.length - 20)
        progressReports := (List.range lines.length).map fun k => progressFor (k + 1) } := by
  induction lines using List.reverseRecOn with
  | nil => rfl
  | append_singleton xs x ih =>
    have hstep : streamLoop (xs ++ [x]) = streamStep (streamLoop xs) x := by
      simp [streamLoop, List.foldl_append]
    rw [hstep, ih]
    simp [streamStep, List.range_succ]

lemma progressFor_lt_one (n : ℕ) : progressFor n < 1 :=
  lt_of_le_of_lt (min_le_right _ _) (by norm_num)

/-- C6: after `n` output lines have been consumed the reported progress is
`min(n / 200, 0.99)` (the `n`-th report, counting from zero, concerns
`n + 1` lines), every in-loop report is strictly below `1`, the value `1`
is reported exactly once, after the loop, when the process has completed;
the display window is the trailing 20 lines of the log while the full log
is still accumulated. -/
theorem stream_progress_and_window (lines : List String) :
    (processStream lines).log = lines ∧
    (processStream lines).display = lines.drop (lines.length - 20) ∧
    (processStream lines).display.length ≤ 20 ∧
    (processStream lines).progressReports
      = ((List.range lines.length).map fun k => progressFor (k + 1)) ++ [1] ∧
    ∀ q ∈ (streamLoop lines).progressReports, q < 1 := by
  refine ⟨?_, ?_, ?_, ?_, ?_⟩
  · simp [processStream, streamLoop_eq]
  · simp [processStream, streamLoop_eq]
  · simp only [processStream, streamLoop_eq, List.length_drop]
    omega
  · simp [processStream, streamLoop_eq]
  · intro q hq
    rw [streamLoop_eq] at hq
    simp only [List.mem_map, List.mem_range] at hq
    obtain ⟨k, _, hk⟩ := hq
    exact hk ▸ progressFor_lt_one (k + 1)

/-- Witness for C6 on a concrete two-line output: the log is accumulated in
full, the first report equals `progressFor 1`, and in-loop progress stays
below one. -/
theorem stream_progress_and_window_witness :
    (processStream ["Nuitka:INFO: Starting", "Nuitka:INFO: Done"]).log
        = ["Nuitka:INFO: Starting", "Nuitka:INFO: Done"] ∧
    (processStream ["Nuitka:INFO: Starting", "Nuitka:INFO: Done"]).display.length ≤ 20 ∧
    progressFor 1 < 1 :=
  ⟨(stream_progress_and_window ["Nuitka:INFO: Starting", "Nuitka:INFO: Done"]).1,
    (stream_progress_and_window ["Nuitka:INFO: Starting", "Nuitka:INFO: Done"]).2.2.1,
    (stream_progress_and_window ["Nuitka:INFO: Starting", "Nuitka:INFO: Done"]).2.2.2.2
      (progressFor 1)
      (by rw [streamLoop_eq]; exact List.mem_map.mpr ⟨0, by simp, rfl⟩)⟩

/-! ## The build pipeline `compile_with_nuitka` (lines 81-384) -/

/-- The three statically defined build strategies: the keys of the
`compile_options` dictionary (lines 186-231), in its textual order. -/
inductive Mode
  | max_compatibility
  | portable
  | standalone
deriving Repr, DecidableEq

/-- The request parameters of `compile_with_nuitka` (line 81). -/
structure CompileReq where
  code : String
  requirements : String
  packages : String
  target_platform : String
  compilation_mode : Mode
  output_extension : String
deriving Repr, DecidableEq

/-- Environment oracle for the external effects the pipeline observes:
the outcome of the pip invocation (an exception message, or an exit code
with stderr), the system-package install summary, the compiler exit code
and output lines per strategy, the files present under the job's output
tree once the compiler process has finished, and the `file` classifier
output for the located binary. -/
structure CompileEnv where
  jobId : String
  packagesResult : String
  pipRaises : Option String
  pipExit : Int
  pipStderr : String
  exitCode : Mode → Int
  outputLines : Mode → List String
  fs : List Path
  fileInfo : String

/-- The result dictionary of `compile_with_nuitka`, plus trace fields
recording side effects the claims speak about: the directories created by
`ensure_dir`, the strategies actually attempted, the local pip-phase
message (`install_result` variable), whether the artifact was renamed, and
the path passed to `os.chmod(..., 0o755)`. -/
structure CompileResult where
  success : Bool
  error : Option String
  install_result : String
  compile_output : List String
  binary_path : Option Path
  binary_info : Option String
  dirsCreated : List Path
  attempts : List Mode
  install_phase : String
  renamed : Bool
  chmodTarget : Option Path
deriving Repr, DecidableEq

/-- Line 108: the per-job input workspace. -/
def job_dir (env : CompileEnv) : Path := ["user_code", env.jobId]

/-- Line 109: the per-job output directory. -/
def compile_output_dir (env : CompileEnv) : Path := ["compiled_output", env.jobId]

/-- The windows error message of lines 117-121 (condensed). -/
def windowsError : String :=
  "Windows compilation is not supported on Streamlit Cloud"

/-- Line 159. -/
def pipOkMsg : String := "Python requirements installed successfully."

/-- Line 162. -/
def pipFailMsg (rc : Int) (stderrText : String) : String :=
  "Installation completed with return code: " ++ toString rc ++ "\n" ++ stderrText

/-- Line 368. -/
def compileFailMsg : String := "Compilation failed or binary not found"

/-- Python truthiness of `s.strip()` is false exactly when every character
of `s` is whitespace; the source only ever uses `.strip()` inside such a
test (lines 134 and 144). -/
def isBlank (s : String) : Bool := s.data.all Char.isWhitespace

/-- Lines 277-295: locate the produced binary with `find_compiled_binary`
and, when that fails, with the extra fallback glob patterns for onefile
builds (exact `user_script`, exact `user_script.bin`, recursive
`user_script`, recursive `*.bin`). -/
def locateArtifact (env : CompileEnv) (ext : String) : Option Path :=
  match find_compiled_binary env.fs (compile_output_dir env) ("user_script" ++ ext) with
  | some p => some p
  | none =>
    if compile_output_dir env ++ ["user_script"] ∈ env.fs then
      some (compile_output_dir env ++ ["user_script"])
    else if compile_output_dir env ++ ["user_script.bin"] ∈ env.fs then
      some (compile_output_dir env ++ ["user_script.bin"])
    else
      match env.fs.find? (matchesRecName (compile_output_dir env) "user_script") with
      | some p => some p
      | none => env.fs.find? (matchesRecExt (compile_output_dir env) ".bin")

/-- Lines 314-318: `shutil.move(binary_path, binary_path + output_extension)`,
on the path components. -/
def renamePath (p : Path) (ext : String) : Path :=
  p.dropLast ++ [lastComponent p ++ ext]

/-- The `result_summary` f-string of lines 327-349, reduced to the parts
relevant here (the numeric file statistics are dropped). -/
def successSummary (packagesRes installPhase binaryInfo : String) : String :=
  "System Packages: " ++ packagesRes ++ "\nPython Requirements: " ++ installPhase
    ++ "\nBinary Information: " ++ binaryInfo

/-- The failure dictionary of lines 365-373. -/
def attemptFail (m : Mode) (out : List String) (dirs : List Path)
    (packagesRes installPhase : String) : CompileResult :=
  { success := false
    error := some compileFailMsg
    install_result := "Compilation failed.\n\nSystem Packages: " ++ packagesRes
      ++ "\nPython Requirements: " ++ installPhase
    compile_output := out
    binary_path := none
    binary_info := some "Compilation failed"
    dirsCreated := dirs
    attempts := [m]
    install_phase := installPhase
    renamed := false
    chmodTarget := none }

/-- Line 315: the rename of lines 314-318 fires when the requested
extension is `.bin` or `.sh` and the located path does not already end
with it. -/
def needsRename (p : Path) (ext : String) : Bool :=
  (ext == ".bin" || ext == ".sh") && !(strEndsWith (lastComponent p) ext)

/-- The path the success branch ends up with after the optional rename. -/
def finalBinaryPath (p : Path) (ext : String) : Path :=
  if needsRename p ext then renamePath p ext else p

/-- The success dictionary of lines 327-364, for located path `p`; the
artifact is chmodded to 0o755 (line 321) at its final path. -/
def attemptSuccess (req : CompileReq) (env : CompileEnv) (dirs : List Path)
    (packagesRes installPhase : String) (p : Path) : CompileResult :=
  { success := true
    error := none
    install_result := successSummary packagesRes installPhase env.fileInfo
    compile_output := env.outputLines req.compilation_mode
    binary_path := some (finalBinaryPath p req.output_extension)
    binary_info := some env.fileInfo
    dirsCreated := dirs
    attempts := [req.compilation_mode]
    install_phase := installPhase
    renamed := needsRename p req.output_extension
    chmodTarget := some (finalBinaryPath p req.output_extension) }

/-- Lines 233-373: run the single selected strategy, locate the artifact,
and build the result dictionary (line 297: success requires exit code zero
AND a located binary path). -/
def attemptPhase (req : CompileReq) (env : CompileEnv) (dirs : List Path)
    (packagesRes installPhase : String) : CompileResult :=
  if env.exitCode req.compilation_mode = 0 then
    match locateArtifact env req.output_extension with
    | some p => attemptSuccess req env dirs packagesRes installPhase p
    | none =>
      attemptFail req.compilation_mode (env.outputLines req.compilation_mode) dirs
        packagesRes installPhase
  else
    attemptFail req.compilation_mode (env.outputLines req.compilation_mode) dirs
      packagesRes installPhase

/-- Lines 81-384 of `src/app.py`: the build pipeline. The two job
directories are created by `ensure_dir` (lines 112-113) before the
platform gate of line 116; the pip phase aborts the pipeline only when the
installer invocation raises (lines 163-173); exactly one strategy -- the
one selected by `compilation_mode` -- is then attempted. -/
def compile_with_nuitka (req : CompileReq) (env : CompileEnv) : CompileResult :=
  if req.target_platform = "windows" then
    { success := false
      error := some windowsError
      install_result := "Windows compilation not supported"
      compile_output := [windowsError]
      binary_path := none
      binary_info := none
      dirsCreated := [job_dir env, compile_output_dir env]
      attempts := []
      install_phase := "No Python requirements specified."
      renamed := false
      chmodTarget := none }
  else if isBlank req.requirements then
    attemptPhase req env [job_dir env, compile_output_dir env]
      (if isBlank req.packages then "No system packages specified." else env.packagesResult)
      "No Python requirements specified."
  else
    match env.pipRaises with
    | some e =>
      { success := false
        error := some e
        install_result := "Error: " ++ e
        compile_output := []
        binary_path := none
        binary_info := none
        dirsCreated := [job_dir env, compile_output_dir env]
        attempts := []
        install_phase := "Error: " ++ e
        renamed := false
        chmodTarget := none }
    | none =>
      attemptPhase req env [job_dir env, compile_output_dir env]
        (if isBlank req.packages then "No system packages specified." else env.packagesResult)
        (if env.pipExit = 0 then pipOkMsg else pipFailMsg env.pipExit env.pipStderr)

lemma attemptPhase_cases (req : CompileReq) (env : CompileEnv) (dirs : List Path)
    (pr ip : String) :
    (∃ p, locateArtifact env req.output_extension = some p ∧
        env.exitCode req.compilation_mode = 0 ∧
        attemptPhase req env dirs pr ip = attemptSuccess req env dirs pr ip p) ∨
    (¬(env.exitCode req.compilation_mode = 0 ∧
          (locateArtifact env req.output_extension).isSome = true) ∧
      attemptPhase req env dirs pr ip =
        attemptFail req.compilation_mode (env.outputLines req.compilation_mode) dirs pr ip) := by
  unfold attemptPhase
  by_cases hz : env.exitCode req.compilation_mode = 0
  · rw [if_pos hz]
    cases hl : locateArtifact env req.output_extension with
    | some p => exact Or.inl ⟨p, rfl, hz, rfl⟩
    | none => exact Or.inr ⟨by simp, rfl⟩
  · rw [if_neg hz]
    exact Or.inr ⟨fun hc => hz hc.1, rfl⟩

lemma attemptPhase_attempts (req : CompileReq) (env : CompileEnv) (dirs : List Path)
    (pr ip : String) :
    (attemptPhase req env dirs pr ip).attempts = [req.compilation_mode] := by
  rcases attemptPhase_cases req env dirs pr ip with ⟨p, _, _, hap⟩ | ⟨_, hap⟩ <;>
    rw [hap] <;> rfl

lemma attemptPhase_install_phase (req : CompileReq) (env : CompileEnv) (dirs : List Path)
    (pr ip : String) :
    (attemptPhase req env dirs pr ip).install_phase = ip := by
  rcases attemptPhase_cases req env dirs pr ip with ⟨p, _, _, hap⟩ | ⟨_, hap⟩ <;>
    rw [hap] <;> rfl

lemma compile_reduces (req : CompileReq) (env : CompileEnv)
    (hw : req.target_platform ≠ "windows")
    (hp : isBlank req.requirements = true ∨ env.pipRaises = none) :
    ∃ pr ip, compile_with_nuitka req env =
      attemptPhase req env [job_dir env, compile_output_dir env] pr ip := by
  unfold compile_with_nuitka
  rw [if_neg hw]
  by_cases hr : isBlank req.requirements = true
  · rw [if_pos hr]
    exact ⟨_, _, rfl⟩
  · rw [if_neg hr]
    cases hpr : env.pipRaises with
    | some e =>
      rcases hp with h | h
      · exact absurd h hr
      · rw [h] at hpr
        cases hpr
    | none => exact ⟨_, _, rfl⟩

/-- C1 (amended): for a non-windows request whose pip phase does not raise,
the pipeline attempts exactly one statically defined strategy -- the one
selected by `compilation_mode` -- succeeds exactly when that attempt exits
zero with a resolvable artifact, and otherwise returns an overall failure
carrying that single attempt's log; no other strategy is ever tried. -/
theorem pipeline_single_attempt (req : CompileReq) (env : CompileEnv)
    (hw : req.target_platform ≠ "windows")
    (hp : isBlank req.requirements = true ∨ env.pipRaises = none) :
    (compile_with_nuitka req env).attempts = [req.compilation_mode] ∧
    ((compile_with_nuitka req env).success = true ↔
      (env.exitCode req.compilation_mode = 0 ∧
        (locateArtifact env req.output_extension).isSome = true)) ∧
    ((compile_with_nuitka req env).success = false →
      (compile_with_nuitka req env).compile_output = env.outputLines req.compilation_mode ∧
      (compile_with_nuitka req env).error = some compileFailMsg) := by
  obtain ⟨pr, ip, heq⟩ := compile_reduces req env hw hp
  rw [heq]
  rcases attemptPhase_cases req env [job_dir env, compile_output_dir env] pr ip with
    ⟨p, hl, hz, hap⟩ | ⟨hno, hap⟩
  · rw [hap]
    refine ⟨rfl, ?_, ?_⟩
    · simp [attemptSuccess, hz, hl]
    · intro h
      simp [attemptSuccess] at h
  · rw [hap]
    refine ⟨rfl, ?_, fun _ => ⟨rfl, rfl⟩⟩
    exact iff_of_false (by simp [attemptFail]) hno

/-- The baseline linux request: no requirements, no packages, strategy
`max_compatibility`, extension `.bin`. -/
def reqLin : CompileReq :=
  { code := "print(1)", requirements := "", packages := "", target_platform := "linux",
    compilation_mode := .max_compatibility, output_extension := ".bin" }

/-- The baseline environment: pip succeeds, every strategy exits zero,
no file is produced. -/
def envBase : CompileEnv :=
  { jobId := "job1", packagesResult := "", pipRaises := none, pipExit := 0, pipStderr := "",
    exitCode := fun _ => 0, outputLines := fun _ => ["Nuitka:INFO: Starting"],
    fs := [], fileInfo := "ELF 64-bit LSB executable" }

/-- Witness for C1 at the baseline request: the single selected strategy is
the only attempt and, failing, yields the overall failure error. -/
theorem pipeline_single_attempt_witness :
    (compile_with_nuitka reqLin envBase).attempts = [Mode.max_compatibility] ∧
    (compile_with_nuitka reqLin envBase).error = some compileFailMsg :=
  ⟨(pipeline_single_attempt reqLin envBase (by decide) (Or.inl (by decide))).1,
    ((pipeline_single_attempt reqLin envBase (by decide) (Or.inl (by decide))).2.2 rfl).2⟩

/-- Environment where the selected strategy fails while another statically
defined strategy would exit zero with a resolvable artifact. -/
def envFirstFails : CompileEnv :=
  { envBase with
    exitCode := fun m => match m with | .max_compatibility => 1 | _ => 0
    fs := [["compiled_output", "job1", "user_script.bin"]] }

/-- C1 counterexample: the selected strategy exits non-zero although
another statically defined strategy would exit zero and its artifact is
resolvable, yet the pipeline stops after the single selected attempt and
returns overall failure -- it never continues to the next strategy. -/
theorem single_strategy_no_fallback_cex :
    (compile_with_nuitka reqLin envFirstFails).success = false ∧
    (compile_with_nuitka reqLin envFirstFails).attempts = [Mode.max_compatibility] ∧
    envFirstFails.exitCode Mode.portable = 0 ∧
    (locateArtifact envFirstFails ".bin").isSome = true := by
  decide

/-- C2 (amended): a request whose target platform is structurally
unsupported (windows) yields a fatal environment error result and no
compilation attempt is made -- but the job workspace and the output
directory have already been created before the platform gate runs. -/
theorem windows_refusal_after_dirs (req : CompileReq) (env : CompileEnv)
    (h : req.target_platform = "windows") :
    (compile_with_nuitka req env).success = false ∧
    (compile_with_nuitka req env).error = some windowsError ∧
    (compile_with_nuitka req env).attempts = [] ∧
    (compile_with_nuitka req env).dirsCreated = [job_dir env, compile_output_dir env] := by
  unfold compile_with_nuitka
  rw [if_pos h]
  exact ⟨rfl, rfl, rfl, rfl⟩

/-- A request targeting windows. -/
def reqWin : CompileReq := { reqLin with target_platform := "windows" }

/-- Witness for C2 (amended) at the concrete windows request. -/
theorem windows_refusal_after_dirs_witness :
    (compile_with_nuitka reqWin envBase).success = false ∧
    (compile_with_nuitka reqWin envBase).error = some windowsError ∧
    (compile_with_nuitka reqWin envBase).attempts = [] ∧
    (compile_with_nuitka reqWin envBase).dirsCreated = [job_dir envBase, compile_output_dir envBase] :=
  windows_refusal_after_dirs reqWin envBase rfl

/-- C2 counterexample: for the windows request the fatal error is indeed
returned with no attempt made, but the per-job workspace and output
directories have been created on the filesystem before the error is
returned -- the claim asserts the error comes before any directory is
created. -/
theorem windows_dirs_created_cex :
    (compile_with_nuitka reqWin envBase).error = some windowsError ∧
    (compile_with_nuitka reqWin envBase).attempts = [] ∧
    (compile_with_nuitka reqWin envBase).dirsCreated =
      [["user_code", "job1"], ["compiled_output", "job1"]] := by
  decide

/-- C3 (amended): an attempt whose process exits zero but for which no
artifact can be located is classified as a failure -- no success flag, no
binary path -- and the pipeline then returns this failure directly; the
attempt list stays the singleton selected strategy, there is no further
strategy to advance to. -/
theorem zero_exit_without_artifact_is_failure (req : CompileReq) (env : CompileEnv)
    (hw : req.target_platform ≠ "windows")
    (hp : isBlank req.requirements = true ∨ env.pipRaises = none)
    (_hz : env.exitCode req.compilation_mode = 0)
    (hl : locateArtifact env req.output_extension = none) :
    (compile_with_nuitka req env).success = false ∧
    (compile_with_nuitka req env).binary_path = none ∧
    (compile_with_nuitka req env).attempts = [req.compilation_mode] := by
  obtain ⟨pr, ip, heq⟩ := compile_reduces req env hw hp
  rw [heq]
  rcases attemptPhase_cases req env [job_dir env, compile_output_dir env] pr ip with
    ⟨p, hlp, _, _⟩ | ⟨_, hap⟩
  · rw [hl] at hlp
    cases hlp
  · rw [hap]
    exact ⟨rfl, rfl, rfl⟩

/-- Witness for C3 (amended) at the baseline environment: exit code zero,
empty filesystem. -/
theorem zero_exit_without_artifact_is_failure_witness :
    (compile_with_nuitka reqLin envBase).success = false ∧
    (compile_with_nuitka reqLin envBase).binary_path = none ∧
    (compile_with_nuitka reqLin envBase).attempts = [Mode.max_compatibility] :=
  zero_exit_without_artifact_is_failure reqLin envBase (by decide) (Or.inl (by decide)) rfl
    (by decide)

/-- The baseline request with the `portable` strategy selected. -/
def reqLinPortable : CompileReq := { reqLin with compilation_mode := .portable }

/-- C3 counterexample: with exit code zero and no discoverable file the
attempt is classified as failure, but the pipeline does not advance to the
next strategy (`standalone`): the failure is returned directly with the
singleton attempt list. -/
theorem zero_exit_no_advance_cex :
    (compile_with_nuitka reqLinPortable envBase).success = false ∧
    (compile_with_nuitka reqLinPortable envBase).binary_path = none ∧
    (compile_with_nuitka reqLinPortable envBase).attempts = [Mode.portable] := by
  decide

/-- C8 (amended): a dependency installation that completes with a non-zero
exit code is recorded in the result's diagnostic text and compilation
still proceeds to the strategy attempt; only an exception raised while
invoking the installer aborts the pipeline. -/
theorem pip_failure_nonfatal (req : CompileReq) (env : CompileEnv)
    (hw : req.target_platform ≠ "windows")
    (hr : ¬isBlank req.requirements = true)
    (he : env.pipRaises = none)
    (hf : ¬env.pipExit = 0) :
    (compile_with_nuitka req env).attempts = [req.compilation_mode] ∧
    (compile_with_nuitka req env).install_phase = pipFailMsg env.pipExit env.pipStderr := by
  unfold compile_with_nuitka
  rw [if_neg hw, if_neg hr, he, if_neg hf]
  exact ⟨attemptPhase_attempts _ _ _ _ _, attemptPhase_install_phase _ _ _ _ _⟩

/-- The baseline request with a non-empty dependency manifest. -/
def reqWithReqs : CompileReq := { reqLin with requirements := "numpy==1.24.0" }

/-- Environment where pip completes with exit code 1. -/
def envPipFail : CompileEnv :=
  { envBase with pipExit := 1, pipStderr := "ERROR: no matching distribution" }

/-- Witness for C8 (amended): pip exits 1, yet the strategy attempt is made
and the failure text is recorded. -/
theorem pip_failure_nonfatal_witness :
    (compile_with_nuitka reqWithReqs envPipFail).attempts = [Mode.max_compatibility] ∧
    (compile_with_nuitka reqWithReqs envPipFail).install_phase =
      pipFailMsg 1 "ERROR: no matching distribution" :=
  pip_failure_nonfatal reqWithReqs envPipFail (by decide) (by decide) rfl (by decide)

/-- Environment where invoking pip raises an exception. -/
def envPipBoom : CompileEnv :=
  { envBase with pipRaises := some "No such file or directory: pip" }

/-- C8 counterexample: an exception raised by the installer invocation
aborts the pipeline with a failure result before any strategy attempt,
contradicting the claim that an installation failure never aborts
compilation. -/
theorem pip_exception_aborts_cex :
    (compile_with_nuitka reqWithReqs envPipBoom).success = false ∧
    (compile_with_nuitka reqWithReqs envPipBoom).attempts = [] ∧
    (compile_with_nuitka reqWithReqs envPipBoom).error =
      some "No such file or directory: pip" := by
  decide

lemma lastComponent_renamePath (p : Path) (ext : String) :
    lastComponent (renamePath p ext) = lastComponent p ++ ext := by
  unfold renamePath lastComponent
  rw [List.getLast?_concat]
  rfl

lemma finalBinaryPath_endsWith (p : Path) (ext : String)
    (hx : ext = ".bin" ∨ ext = ".sh") :
    strEndsWith (lastComponent (finalBinaryPath p ext)) ext = true := by
  unfold finalBinaryPath
  by_cases hE : strEndsWith (lastComponent p) ext = true
  · have : needsRename p ext = false := by
      unfold needsRename
      rw [hE]
      simp
    rw [this]
    simpa using hE
  · have hb : (ext == ".bin" || ext == ".sh") = true := by
      rcases hx with h | h <;> simp [h]
    have : needsRename p ext = true := by
      unfold needsRename
      rw [hb, Bool.eq_false_iff.mpr hE]
      rfl
    rw [this]
    simp only [if_true]
    rw [lastComponent_renamePath]
    exact strEndsWith_append _ _

/-- C10: a successful compilation with requested extension `.bin` or `.sh`
returns a binary path whose file name ends with that extension (the
located artifact is renamed by appending it when missing), and exactly
that path has been chmodded to 0o755 before the result is returned. -/
theorem success_extension_and_chmod (req : CompileReq) (env : CompileEnv)
    (hx : req.output_extension = ".bin" ∨ req.output_extension = ".sh")
    (hs : (compile_with_nuitka req env).success = true) :
    ∃ p, (compile_with_nuitka req env).binary_path = some p ∧
      strEndsWith (lastComponent p) req.output_extension = true ∧
      (compile_with_nuitka req env).chmodTarget = some p := by
  by_cases hw : req.target_platform = "windows"
  · rw [compile_with_nuitka, if_pos hw] at hs
    cases hs
  by_cases hr : isBlank req.requirements = true
  case neg =>
    cases hpr : env.pipRaises with
    | some e =>
      rw [compile_with_nuitka, if_neg hw, if_neg hr, hpr] at hs
      cases hs
    | none =>
      obtain ⟨pr, ip, heq⟩ := compile_reduces req env hw (Or.inr hpr)
      rw [heq] at hs ⊢
      rcases attemptPhase_cases req env [job_dir env, compile_output_dir env] pr ip with
        ⟨p, _, _, hap⟩ | ⟨_, hap⟩
      · rw [hap]
        exact ⟨finalBinaryPath p req.output_extension, rfl,
          finalBinaryPath_endsWith p req.output_extension hx, rfl⟩
      · rw [hap] at hs
        cases hs
  case pos =>
    obtain ⟨pr, ip, heq⟩ := compile_reduces req env hw (Or.inl hr)
    rw [heq] at hs ⊢
    rcases attemptPhase_cases req env [job_dir env, compile_output_dir env] pr ip with
      ⟨p, _, _, hap⟩ | ⟨_, hap⟩
    · rw [hap]
      exact ⟨finalBinaryPath p req.output_extension, rfl,
        finalBinaryPath_endsWith p req.output_extension hx, rfl⟩
    · rw [hap] at hs
      cases hs

/-- The baseline request with extension `.sh`. -/
def reqSh : CompileReq := { reqLin with output_extension := ".sh" }

/-- Environment whose output tree holds a bare `user_script` artifact. -/
def envBareArtifact : CompileEnv :=
  { envBase with fs := [["compiled_output", "job1", "user_script"]] }

/-- Witness for C10: the bare located artifact is renamed to carry the
requested `.sh` extension and that final path is the chmod target. -/
theorem success_extension_and_chmod_witness :
    ∃ p, (compile_with_nuitka reqSh envBareArtifact).binary_path = some p ∧
      strEndsWith (lastComponent p) ".sh" = true ∧
      (compile_with_nuitka reqSh envBareArtifact).chmodTarget = some p :=
  success_extension_and_chmod reqSh envBareArtifact (Or.inr rfl) (by decide)

/-! ## The sandbox runner `run_compiled_binary` (lines 477-531) -/

/-- Termination classification of one sandboxed execution, matching the
three return sites of the source. `fuelOut` is a model artifact (the bound
on the loop recursion) and is never produced when the runner is called
with its actual fuel, see `run_never_fuelOut`. -/
inductive RunReason
  | completed
  | timedOut
  | spawnFailed
  | fuelOut
deriving Repr, DecidableEq

/-- Result of `run_compiled_binary` plus trace fields: `captured` is the
list of tagged fragments held in the `output_text` variable at the moment
of return, `terminated` records a `terminate()` call, `finishTime` is the
model clock (tenths of a second since the spawn) at return, and the two
flags record that the chmod happened before the spawn and that the spawn
was attempted at all. -/
structure RunResult where
  ok : Bool
  reason : RunReason
  text : String
  captured : List String
  terminated : Bool
  finishTime : Nat
  chmodBeforeSpawn : Bool
  spawnAttempted : Bool
deriving Repr, DecidableEq

/-- Observable behaviour of the child process: on each stream, lines become
readable at the given model times (in order), and the process exits --
closing both streams -- at `exitTime`. Times are tenths of a second. -/
structure ChildBehavior where
  exitTime : Nat
  outLines : List (Nat × String)
  errLines : List (Nat × String)
deriving Repr, DecidableEq

/-- The 10 second timeout of line 501, in tenths of a second. -/
def timeoutDs : Nat := 100

/-- A blocking `readline()` on a pipe at model time `t`: returns the next
pending line once it is available, or the empty read at end of stream,
which only occurs when the child has exited. The first component is the
time at which the call returns. -/
def readLineAt (exitTime t : Nat) :
    List (Nat × String) → Nat × Option String × List (Nat × String)
  | [] => (max t exitTime, none, [])
  | (a, l) :: rest => (max t a, some l, rest)

lemma readLineAt_time_le (exitTime t : Nat) (ls : List (Nat × String)) :
    t ≤ (readLineAt exitTime t ls).1 := by
  cases ls with
  | nil => exact le_max_left t exitTime
  | cons q rest => exact le_max_left t q.1

/-- Lines 508 and 514: a line read in the loop is tagged with its stream
and appended (it carries its newline). -/
def tagLine (streamTag l : String) : String := streamTag ++ l ++ "\n"

/-- The remaining content of one stream as `communicate()` returns it
after exit: all pending lines as one block. -/
def remainingText (ls : List (Nat × String)) : String :=
  String.join (ls.map fun q => q.2 ++ "\n")

/-- Lines 520-525: after exit, each nonempty stream remainder is appended,
tagged once as a whole block. -/
def drainRest (outs errs : List (Nat × String)) : List String :=
  (if outs.isEmpty then [] else ["[STDOUT] " ++ remainingText outs]) ++
  (if errs.isEmpty then [] else ["[STDERR] " ++ remainingText errs])

/-- The polling loop of lines 497-518, one recursive step per iteration:
poll for exit, check elapsed time (strictly more than 10 s), blocking
readline on stdout then on stderr, `time.sleep(0.1)`. On timeout the
process is terminated and the fixed message -- not the captured
transcript -- is returned. The first argument is recursion fuel. -/
def pollLoop (c : ChildBehavior) :
    Nat → Nat → List (Nat × String) → List (Nat × String) → List String → RunResult
  | 0, t, _, _, acc =>
    { ok := false, reason := .fuelOut, text := "", captured := acc, terminated := false,
      finishTime := t, chmodBeforeSpawn := true, spawnAttempted := true }
  | fuel + 1, t, outs, errs, acc =>
    if c.exitTime ≤ t then
      { ok := true, reason := .completed,
        text := String.join (acc ++ drainRest outs errs),
        captured := acc ++ drainRest outs errs, terminated := false, finishTime := t,
        chmodBeforeSpawn := true, spawnAttempted := true }
    else if timeoutDs < t then
      { ok := false, reason := .timedOut,
        text := "Execution timed out after 10 seconds.",
        captured := acc, terminated := true, finishTime := t,
        chmodBeforeSpawn := true, spawnAttempted := true }
    else
      pollLoop c fuel
        ((readLineAt c.exitTime (readLineAt c.exitTime t outs).1 errs).1 + 1)
        (readLineAt c.exitTime t outs).2.2
        (readLineAt c.exitTime (readLineAt c.exitTime t outs).1 errs).2.2
        ((match (readLineAt c.exitTime t outs).2.1 with
          | some l => acc ++ [tagLine "[STDOUT] " l]
          | none => acc) ++
         (match (readLineAt c.exitTime (readLineAt c.exitTime t outs).1 errs).2.1 with
          | some l => [tagLine "[STDERR] " l]
          | none => []))

/-- Spawn-time behaviour of one artifact: its `file`-style classification
(which the source never inspects) and whether `Popen` raises, e.g. an exec
format error for a foreign binary. -/
structure BinaryEnv where
  fileType : String
  spawnError : Option String
  child : ChildBehavior
deriving Repr, DecidableEq

/-- Lines 477-531 of `src/app.py`, `run_compiled_binary`: chmod 0o755 on
the artifact, spawn it, then run the poll loop; any exception is caught
and reported as an "Error running the binary" failure. -/
def run_compiled_binary (env : BinaryEnv) : RunResult :=
  match env.spawnError with
  | some e =>
    { ok := false, reason := .spawnFailed, text := "Error running the binary: " ++ e,
      captured := [], terminated := false, finishTime := 0,
      chmodBeforeSpawn := true, spawnAttempted := true }
  | none =>
    pollLoop env.child (env.child.exitTime + 2) 0 env.child.outLines env.child.errLines []

lemma pollLoop_timedOut (c : ChildBehavior) :
    ∀ fuel t outs errs acc,
      (pollLoop c fuel t outs errs acc).reason = .timedOut →
      (pollLoop c fuel t outs errs acc).text = "Execution timed out after 10 seconds." ∧
      (pollLoop c fuel t outs errs acc).terminated = true ∧
      timeoutDs < (pollLoop c fuel t outs errs acc).finishTime := by
  intro fuel
  induction fuel with
  | zero =>
    intro t outs errs acc h
    simp [pollLoop] at h
  | succ n ih =>
    intro t outs errs acc h
    rw [pollLoop] at h ⊢
    by_cases he : c.exitTime ≤ t
    · rw [if_pos he] at h
      simp at h
    rw [if_neg he] at h ⊢
    by_cases ht : timeoutDs < t
    · rw [if_pos ht] at h ⊢
      exact ⟨rfl, rfl, ht⟩
    · rw [if_neg ht] at h ⊢
      exact ih _ _ _ _ h

lemma pollLoop_not_fuelOut (c : ChildBehavior) :
    ∀ fuel t outs errs acc, 1 ≤ fuel → c.exitTime + 1 ≤ t + fuel →
      (pollLoop c fuel t outs errs acc).reason ≠ .fuelOut := by
  intro fuel
  induction fuel with
  | zero =>
    intro t outs errs acc h1 _
    exact absurd h1 (by omega)
  | succ n ih =>
    intro t outs errs acc _ hb
    rw [pollLoop]
    by_cases he : c.exitTime ≤ t
    · rw [if_pos he]
      simp
    rw [if_neg he]
    by_cases ht : timeoutDs < t
    · rw [if_pos ht]
      simp
    · rw [if_neg ht]
      have hmono : t ≤ (readLineAt c.exitTime (readLineAt c.exitTime t outs).1 errs).1 :=
        le_trans (readLineAt_time_le c.exitTime t outs)
          (readLineAt_time_le c.exitTime (readLineAt c.exitTime t outs).1 errs)
      exact ih _ _ _ _ (by omega) (by omega)

/-- The poll loop never exhausts its fuel: the runner's result is always
one of the source's three outcomes. -/
lemma run_never_fuelOut (env : BinaryEnv) :
    (run_compiled_binary env).reason ≠ .fuelOut := by
  unfold run_compiled_binary
  cases env.spawnError with
  | some e => simp
  | none => exact pollLoop_not_fuelOut env.child _ 0 _ _ _ (by omega) (by omega)

/-- C4 (amended): whenever the sandbox runner reports the timeout outcome,
it has terminated the process and the model clock is strictly past the
10 second limit, but the returned text is exactly the fixed timeout
message: the stream-tagged transcript captured so far (`captured`) is
discarded, not included in the result. -/
theorem timeout_returns_fixed_message (env : BinaryEnv)
    (h : (run_compiled_binary env).reason = .timedOut) :
    (run_compiled_binary env).terminated = true ∧
    (run_compiled_binary env).text = "Execution timed out after 10 seconds." ∧
    timeoutDs < (run_compiled_binary env).finishTime := by
  unfold run_compiled_binary at h ⊢
  revert h
  cases env.spawnError with
  | some e =>
    intro h
    simp at h
  | none =>
    intro h
    obtain ⟨h1, h2, h3⟩ := pollLoop_timedOut env.child _ _ _ _ _ h
    exact ⟨h2, h1, h3⟩

/-- A child that keeps printing on both streams for 15 s and would exit
at 100 s: every read returns immediately. -/
def childChatty : ChildBehavior :=
  { exitTime := 1000,
    outLines := List.replicate 150 (0, "hello"),
    errLines := List.replicate 150 (0, "oops") }

/-- A chatty long-running execution environment. -/
def envTimeoutDemo : BinaryEnv :=
  { fileType := "ELF 64-bit LSB executable", spawnError := none, child := childChatty }

set_option maxRecDepth 20000 in
/-- C4 counterexample: this run is timed out with a nonempty stream-tagged
transcript captured up to the moment of termination, yet the returned
result text is only the fixed message -- the transcript is not included. -/
theorem timeout_transcript_discarded_cex :
    (run_compiled_binary envTimeoutDemo).reason = .timedOut ∧
    (run_compiled_binary envTimeoutDemo).captured ≠ [] ∧
    (run_compiled_binary envTimeoutDemo).text = "Execution timed out after 10 seconds." := by
  decide

set_option maxRecDepth 20000 in
/-- Witness for C4 (amended) at the chatty environment. -/
theorem timeout_returns_fixed_message_witness :
    (run_compiled_binary envTimeoutDemo).terminated = true ∧
    (run_compiled_binary envTimeoutDemo).text = "Execution timed out after 10 seconds." ∧
    timeoutDs < (run_compiled_binary envTimeoutDemo).finishTime :=
  timeout_returns_fixed_message envTimeoutDemo (by decide)

/-- A child printing a line on each stream every poll interval. -/
def childContinuous : ChildBehavior :=
  { exitTime := 1000,
    outLines := List.replicate 150 (0, "tick"),
    errLines := List.replicate 150 (0, "tock") }

/-- Environment with continuously available output on both streams. -/
def envContinuous : BinaryEnv :=
  { fileType := "ELF 64-bit LSB executable", spawnError := none, child := childContinuous }

set_option maxRecDepth 20000 in
/-- C5 (amended): the poll loop checks elapsed time once per iteration, so
every timed-out run terminates the process and finishes strictly after the
10 s limit; when both streams always have a line available the reads never
block and the overrun is exactly one poll interval -- but the reads are
blocking, so a child that goes silent on either stream delays detection
until that stream ends (see the counterexample). -/
theorem timeout_detection_bound :
    (∀ env : BinaryEnv, (run_compiled_binary env).reason = .timedOut →
      timeoutDs < (run_compiled_binary env).finishTime ∧
      (run_compiled_binary env).terminated = true) ∧
    ((run_compiled_binary envContinuous).reason = .timedOut ∧
      (run_compiled_binary envContinuous).finishTime = timeoutDs + 1) := by
  constructor
  · intro env h
    unfold run_compiled_binary at h ⊢
    revert h
    cases env.spawnError with
    | some e =>
      intro h
      simp at h
    | none =>
      intro h
      obtain ⟨_, h2, h3⟩ := pollLoop_timedOut env.child _ _ _ _ _ h
      exact ⟨h3, h2⟩
  · decide

set_option maxRecDepth 20000 in
/-- Witness for C5 (amended), applying its universal part to the
continuously chatty run. -/
theorem timeout_detection_bound_witness :
    timeoutDs < (run_compiled_binary envContinuous).finishTime ∧
    (run_compiled_binary envContinuous).terminated = true :=
  timeout_detection_bound.1 envContinuous (by decide)

/-- A child that runs for 30 s writing nothing on either stream. -/
def childSilent : ChildBehavior := { exitTime := 300, outLines := [], errLines := [] }

/-- A silent 30 second execution environment. -/
def envSilent : BinaryEnv :=
  { fileType := "ELF 64-bit LSB executable", spawnError := none, child := childSilent }

set_option maxRecDepth 20000 in
/-- C5 counterexample: a program that runs for 30 s in silence is never
timed out at all -- the blocking readline waits for end of stream, the
loop only then observes the exit, and the call returns `completed` at
30.1 s, an overrun of 20.1 s past the 10 s limit instead of at most one
poll interval. -/
theorem silent_child_never_timed_out_cex :
    (run_compiled_binary envSilent).reason = .completed ∧
    (run_compiled_binary envSilent).terminated = false ∧
    (run_compiled_binary envSilent).finishTime = 301 := by
  decide

/-- C9 (amended): the runner performs no file-type compatibility check --
its behaviour is identical for every `fileType` value -- and for every
artifact it sets the executable bits and then attempts the spawn; an
artifact incompatible with the host only fails at spawn time, and that
failure is reported as a descriptive "Error running the binary" result. -/
theorem runner_spawns_unconditionally (env : BinaryEnv) (e : String)
    (h : env.spawnError = some e) :
    (run_compiled_binary env).chmodBeforeSpawn = true ∧
    (run_compiled_binary env).spawnAttempted = true ∧
    (run_compiled_binary env).ok = false ∧
    (run_compiled_binary env).text = "Error running the binary: " ++ e ∧
    (∀ t : String, run_compiled_binary { env with fileType := t } = run_compiled_binary env) := by
  unfold run_compiled_binary
  rw [h]
  exact ⟨rfl, rfl, rfl, rfl, fun t => rfl⟩

/-- A Windows PE artifact on the Linux host: `Popen` raises an exec format
error. -/
def envPE : BinaryEnv :=
  { fileType := "PE32+ executable (console) x86-64, for MS Windows",
    spawnError := some "Exec format error",
    child := { exitTime := 0, outLines := [], errLines := [] } }

/-- C9 counterexample: for a Windows PE artifact on the Linux host the
runner does not refuse up front -- it chmods and attempts the spawn, which
then fails -- contradicting "without ever spawning the artifact". -/
theorem no_filetype_gate_cex :
    (run_compiled_binary envPE).spawnAttempted = true ∧
    (run_compiled_binary envPE).ok = false ∧
    (run_compiled_binary envPE).text = "Error running the binary: Exec format error" := by
  decide

/-- Witness for C9 (amended) at the PE artifact. -/
theorem runner_spawns_unconditionally_witness :
    (run_compiled_binary envPE).chmodBeforeSpawn = true ∧
    (run_compiled_binary envPE).spawnAttempted = true ∧
    (run_compiled_binary envPE).ok = false ∧
    (run_compiled_binary envPE).text = "Error running the binary: Exec format error" :=
  ⟨(runner_spawns_unconditionally envPE "Exec format error" rfl).1,
    (runner_spawns_unconditionally envPE "Exec format error" rfl).2.1,
    (runner_spawns_unconditionally envPE "Exec format error" rfl).2.2.1,
    (runner_spawns_unconditionally envPE "Exec format error" rfl).2.2.2.1⟩

end App
